import Mathlib

/-!
Shallow embedding of the SEO trend analyzer's scoring and aggregation core
(`src/services/scoring.ts` and `src/services/keyword-analyzer.ts`), together
with theorems checking the specification's claims about it.

Numeric conventions: the TypeScript code computes over JS numbers; the
database schema declares `search_volume` and `competition_index` as integer
columns and the metrics/trend fields as floats.  We embed the integer columns
as `ℤ` and the float-valued fields as `ℚ`, and `Math.round` as Mathlib's
`round` (both are `⌊x + 1/2⌋`).  Fallible repository reads are embedded as
`Except String`; a JS `NaN` average and `undefined` median on an empty
category are embedded as `Option.none`.
-/

namespace SeoAnalyzer

/-- Trend status of a keyword, from `src/types/index.ts`. -/
inductive TrendStatus
  | rising
  | stable
  | declining
  | peak
  | seasonal
  deriving DecidableEq

/-- Keyword record, from `src/types/index.ts` (`search_volume` and
`competition_index` are integer columns in the schema). -/
structure Keyword where
  id : String
  keyword : String
  search_volume : ℤ
  competition_index : ℤ
  category : String
  trend_status : TrendStatus
  created_at : String
  updated_at : String
  deriving DecidableEq

/-- Metrics snapshot for a keyword, from `src/types/index.ts`. -/
structure KeywordMetrics where
  id : String
  keyword_id : String
  click_volume : ℚ
  conversion_potential : ℚ
  niche_saturation : ℚ
  commercial_intent : ℚ
  recorded_at : String
  deriving DecidableEq

/-- Trend snapshot for a keyword, from `src/types/index.ts`. -/
structure TrendAnalysis where
  id : String
  keyword_id : String
  velocity_score : ℚ
  seasonality_pattern : String
  peak_month : Option ℤ
  growth_7d : ℚ
  growth_30d : ℚ
  analyzed_at : String
  deriving DecidableEq

/-- Revenue tier classification, from `src/types/index.ts`. -/
inductive RevenueTier
  | low
  | medium
  | high
  | very_high
  deriving DecidableEq

/-- Output record of `calculateOpportunityScore`, from `src/types/index.ts`. -/
structure OpportunityScore where
  keyword : String
  opportunity_score : ℤ
  search_volume : ℤ
  competition_index : ℤ
  category : String
  reason : String
  potential_revenue_tier : RevenueTier
  deriving DecidableEq

/-- `ScoringEngine.generateReason` from `src/services/scoring.ts`: builds the
list of applicable factor phrases and joins them with `". "`; the fallback for
an empty list is `"Moderate opportunity"`. -/
def generateReason (keyword : Keyword) (metrics : Option KeywordMetrics)
    (trend : Option TrendAnalysis) : String :=
  let factors : List String :=
    (if 500 < keyword.search_volume then
      ["High search volume (" ++ toString keyword.search_volume ++ " searches)"]
    else [])
    ++ (if keyword.competition_index < 40 then ["Low competition"]
        else if 70 < keyword.competition_index then ["High competition market"]
        else [])
    ++ (match trend with
        | some t =>
          if 50 < t.velocity_score then ["Rapidly rising trend"]
          else if 20 < t.velocity_score then ["Growing trend"]
          else []
        | none => [])
    ++ (if keyword.trend_status = TrendStatus.peak then ["Currently at peak popularity"]
        else if keyword.trend_status = TrendStatus.rising then ["Trending upward"]
        else [])
    ++ (match metrics with
        | some m => if 70 < m.commercial_intent then ["High buyer intent"] else []
        | none => [])
  if 0 < factors.length then String.intercalate ". " factors else "Moderate opportunity"

/-- `ScoringEngine.categorizeRevenueTier` from `src/services/scoring.ts`. -/
def categorizeRevenueTier (opportunityScore searchVolume competitionIndex : ℤ) :
    RevenueTier :=
  if 80 < opportunityScore ∧ 1000 < searchVolume ∧ competitionIndex < 30 then
    RevenueTier.very_high
  else if 70 < opportunityScore ∧ 500 < searchVolume then RevenueTier.high
  else if 50 < opportunityScore then RevenueTier.medium
  else RevenueTier.low

/-- The local `opportunityScore` value of
`ScoringEngine.calculateOpportunityScore` in `src/services/scoring.ts`: the
rounded weighted combination before the final clamp to `[0, 100]`. -/
def rawOpportunityScore (keyword : Keyword) (metrics : Option KeywordMetrics)
    (trend : Option TrendAnalysis) : ℤ :=
  let velocityScore : ℚ := (trend.map (fun t => t.velocity_score)).getD 0
  let niche_saturation : ℚ := (metrics.map (fun m => m.niche_saturation)).getD 50
  let volumeScore : ℚ := min ((keyword.search_volume : ℚ) / 100) 100
  let competitionScore : ℚ := (100 - (keyword.competition_index : ℚ)) * 0.4
  let trendScore : ℚ := (max 0 velocityScore) * 0.3
  let saturationScore : ℚ := (100 - niche_saturation) * 0.2
  round ((volumeScore * 0.2 + competitionScore + trendScore + saturationScore) / 1.7)

/-- `ScoringEngine.calculateOpportunityScore` from `src/services/scoring.ts`.
The revenue tier is computed from the pre-clamp score; the returned
`opportunity_score` field is clamped to `[0, 100]`. -/
def calculateOpportunityScore (keyword : Keyword) (metrics : Option KeywordMetrics)
    (trend : Option TrendAnalysis) : OpportunityScore :=
  let opportunityScore := rawOpportunityScore keyword metrics trend
  { keyword := keyword.keyword
    opportunity_score := min 100 (max 0 opportunityScore)
    search_volume := keyword.search_volume
    competition_index := keyword.competition_index
    category := keyword.category
    reason := generateReason keyword metrics trend
    potential_revenue_tier :=
      categorizeRevenueTier opportunityScore keyword.search_volume
        keyword.competition_index }

/-- `ScoringEngine.calculateSEOScore` from `src/services/scoring.ts`. -/
def calculateSEOScore (keyword : Keyword) (metrics : Option KeywordMetrics) : ℤ :=
  let baseScore : ℚ := min ((keyword.search_volume : ℚ) / 20) 50
  let competitiveScore : ℚ := (100 - (keyword.competition_index : ℚ)) * 0.3
  let conversionScore : ℚ :=
    ((metrics.map (fun m => m.conversion_potential)).getD 50) * 0.2
  round (baseScore + competitiveScore + conversionScore)

/-- `ScoringEngine.calculateTrendVelocity` from `src/services/scoring.ts`. -/
def calculateTrendVelocity (growthSevenDay growthThirtyDay : ℚ) : ℚ :=
  if growthThirtyDay < growthSevenDay then
    min 100 ((growthSevenDay - growthThirtyDay) * 2)
  else
    max (-100) ((growthSevenDay - growthThirtyDay) * 2)

/-- One `KeywordAnalyzer` call's view of the repository reads issued by
`findOpportunities` in `src/services/keyword-analyzer.ts`: the filtered
candidate-list query on `keywords`, and the per-candidate latest
`keyword_metrics` / `trend_analysis` queries keyed by keyword id.  A failed
read is an `Except.error` carrying the backend message. -/
structure RepoView where
  keywordsRead : Except String (List Keyword)
  latestMetrics : String → Except String (Option KeywordMetrics)
  latestTrend : String → Except String (Option TrendAnalysis)

/-- Body of the per-candidate loop of `findOpportunities`: the destructuring
`const (data: metrics) = await ...` discards a read error, so a failed
metrics or trend read leaves the snapshot `null` (here `none`). -/
def scoreCandidate (repo : RepoView) (keyword : Keyword) : OpportunityScore :=
  let metrics : Option KeywordMetrics :=
    match repo.latestMetrics keyword.id with
    | Except.ok m => m
    | Except.error _ => none
  let trend : Option TrendAnalysis :=
    match repo.latestTrend keyword.id with
    | Except.ok t => t
    | Except.error _ => none
  calculateOpportunityScore keyword metrics trend

/-- Comparator of the final `opportunities.sort((a, b) => b.opportunity_score -
a.opportunity_score)`: `a` may stay before `b` exactly when the comparator is
nonpositive.  JS `Array.prototype.sort` is stable, so the sort is embedded as
a stable merge sort with this relation. -/
def scoreDescLE (a b : OpportunityScore) : Bool :=
  b.opportunity_score ≤ a.opportunity_score

/-- `KeywordAnalyzer.findOpportunities` from `src/services/keyword-analyzer.ts`.
A failed candidate-list read throws (`Except.error`); each surviving candidate
is scored with its latest metrics/trend snapshots and the results are sorted
by `opportunity_score` descending. -/
def findOpportunities (repo : RepoView) : Except String (List OpportunityScore) :=
  match repo.keywordsRead with
  | Except.error e => Except.error ("Failed to fetch keywords: " ++ e)
  | Except.ok keywords =>
    Except.ok ((keywords.map (scoreCandidate repo)).mergeSort scoreDescLE)

/-- Ascending comparator of `indices.sort((a, b) => a - b)` in
`getCompetitionAnalysis`. -/
def ascLE (a b : ℤ) : Bool :=
  a ≤ b

/-- Result shape of `KeywordAnalyzer.getCompetitionAnalysis`.  `average` is
`none` when the JS code computes `Math.round(0 / 0) = NaN` (empty category)
and `median` is `none` when the JS index `indices[Math.floor(len / 2)]` is out
of bounds (`undefined`). -/
structure CompetitionSummary where
  low_competition : Nat
  medium_competition : Nat
  high_competition : Nat
  average : Option ℤ
  median : Option ℤ
  deriving DecidableEq

/-- Pure part of `KeywordAnalyzer.getCompetitionAnalysis` in
`src/services/keyword-analyzer.ts`, applied to the competition indices read
for the category. -/
def getCompetitionAnalysisCore (data : List ℤ) : CompetitionSummary :=
  let indices := data.mergeSort ascLE
  let len := indices.length
  { low_competition := (indices.filter (fun i => i < 33)).length
    medium_competition := (indices.filter (fun i => 33 ≤ i ∧ i < 66)).length
    high_competition := (indices.filter (fun i => 66 ≤ i)).length
    average :=
      if len = 0 then none
      else some (round (((indices.foldl (fun a b => a + b) 0 : ℤ) : ℚ) / (len : ℚ)))
    median := indices[len / 2]? }

/-- `KeywordAnalyzer.getCompetitionAnalysis` from
`src/services/keyword-analyzer.ts`: a failed read of the category's
competition indices throws; otherwise the summary is computed. -/
def getCompetitionAnalysis (readResult : Except String (List ℤ)) :
    Except String CompetitionSummary :=
  match readResult with
  | Except.error e => Except.error ("Failed to analyze competition: " ++ e)
  | Except.ok data => Except.ok (getCompetitionAnalysisCore data)

/-! ## Concrete inputs used by witnesses and counterexamples -/

/-- Keyword with `search_volume = 600`, `competition_index = 20` and
`trend_status = peak`, as in the spec's reason-generation example. -/
def kwPeak600 : Keyword :=
  { id := "kw-600"
    keyword := "demo keyword"
    search_volume := 600
    competition_index := 20
    category := "demo"
    trend_status := TrendStatus.peak
    created_at := ""
    updated_at := "" }

/-! ## Claims -/

/-- Claim C1: for every keyword record with non-negative integer
`search_volume` and `competition_index` in `[0, 100]`, any (possibly absent)
metrics snapshot with `niche_saturation` in `[0, 100]` and any (possibly
absent) trend snapshot with `velocity_score` in `[-100, 100]`, the
`opportunity_score` field returned by `calculateOpportunityScore` is an
integer in `[0, 100]`. -/
theorem C1_opportunity_score_in_range (keyword : Keyword)
    (metrics : Option KeywordMetrics) (trend : Option TrendAnalysis)
    (hvol : 0 ≤ keyword.search_volume)
    (hci0 : 0 ≤ keyword.competition_index) (hci1 : keyword.competition_index ≤ 100)
    (hns : ∀ m ∈ metrics, 0 ≤ m.niche_saturation ∧ m.niche_saturation ≤ 100)
    (hvs : ∀ t ∈ trend, -100 ≤ t.velocity_score ∧ t.velocity_score ≤ 100) :
    0 ≤ (calculateOpportunityScore keyword metrics trend).opportunity_score ∧
      (calculateOpportunityScore keyword metrics trend).opportunity_score ≤ 100 := by
  have h : (calculateOpportunityScore keyword metrics trend).opportunity_score
      = min 100 (max 0 (rawOpportunityScore keyword metrics trend)) := rfl
  constructor
  · rw [h]
    exact le_min (by norm_num) (le_max_left 0 _)
  · rw [h]
    exact min_le_left _ _

/-- Witness for C1 at the concrete keyword `kwPeak600` with both snapshots
absent. -/
theorem C1_opportunity_score_in_range_witness :
    0 ≤ (calculateOpportunityScore kwPeak600 none none).opportunity_score ∧
      (calculateOpportunityScore kwPeak600 none none).opportunity_score ≤ 100 :=
  C1_opportunity_score_in_range kwPeak600 none none (by decide) (by decide)
    (by decide) (fun m hm => nomatch hm) (fun t ht => nomatch ht)

/-- Counterexample to claim C2: for `search_volume = 600`,
`competition_index = 20`, `trend_status = peak`, trend and metrics absent, the
reason string is NOT the claimed string with a trailing period — the factor
phrases are joined with `". "` and no final period is appended. -/
theorem C2_counterexample :
    (calculateOpportunityScore kwPeak600 none none).reason ≠
      "High search volume (600 searches). Low competition. Currently at peak popularity." := by
  decide

/-- Claim C2 as amended: for `search_volume = 600`, `competition_index = 20`,
`trend_status = peak`, trend and metrics absent, the reason string returned by
`calculateOpportunityScore` is exactly `"High search volume (600 searches).
Low competition. Currently at peak popularity"` — without a trailing
period. -/
theorem C2_reason_text :
    (calculateOpportunityScore kwPeak600 none none).reason =
      "High search volume (600 searches). Low competition. Currently at peak popularity" := by
  decide

/-- Claim C3: revenue-tier assignment uses strict inequalities with first
match winning: a computed score above 80 with volume above 1000 and
competition below 30 is `very_high`; the same score and competition with
volume exactly 1000 gives exactly `high` (so at most `high`); and a score of
exactly 80, 70 or 50 never qualifies for the next-higher tier. -/
theorem C3_revenue_tier_thresholds :
    (∀ s v c : ℤ, 80 < s → 1000 < v → c < 30 →
        categorizeRevenueTier s v c = RevenueTier.very_high) ∧
    (∀ s c : ℤ, 80 < s → c < 30 →
        categorizeRevenueTier s 1000 c = RevenueTier.high) ∧
    (∀ v c : ℤ, categorizeRevenueTier 80 v c ≠ RevenueTier.very_high) ∧
    (∀ v c : ℤ, categorizeRevenueTier 70 v c ≠ RevenueTier.high) ∧
    (∀ v c : ℤ, categorizeRevenueTier 50 v c ≠ RevenueTier.medium) := by
  refine ⟨?_, ?_, ?_, ?_, ?_⟩
  · intro s v c hs hv hc
    simp only [categorizeRevenueTier, if_pos (⟨hs, hv, hc⟩ : _ ∧ _ ∧ _)]
  · intro s c hs hc
    have h1 : ¬(80 < s ∧ 1000 < (1000 : ℤ) ∧ c < 30) := by omega
    have h2 : 70 < s ∧ 500 < (1000 : ℤ) := by omega
    simp only [categorizeRevenueTier, if_neg h1, if_pos h2]
  · intro v c
    simp only [categorizeRevenueTier]
    split_ifs with h1 h2 h3 <;>
      first
        | decide
        | exact absurd h1 (by omega)
        | exact absurd h2 (by omega)
        | exact absurd h3 (by omega)
  · intro v c
    simp only [categorizeRevenueTier]
    split_ifs with h1 h2 h3 <;>
      first
        | decide
        | exact absurd h1 (by omega)
        | exact absurd h2 (by omega)
        | exact absurd h3 (by omega)
  · intro v c
    simp only [categorizeRevenueTier]
    split_ifs with h1 h2 h3 <;>
      first
        | decide
        | exact absurd h1 (by omega)
        | exact absurd h2 (by omega)
        | exact absurd h3 (by omega)

/-- Witness for C3 at concrete scores, volumes and competition indices. -/
theorem C3_revenue_tier_thresholds_witness :
    categorizeRevenueTier 81 1001 29 = RevenueTier.very_high ∧
    categorizeRevenueTier 81 1000 29 = RevenueTier.high ∧
    categorizeRevenueTier 80 1001 29 ≠ RevenueTier.very_high ∧
    categorizeRevenueTier 70 1001 29 ≠ RevenueTier.high ∧
    categorizeRevenueTier 50 1001 29 ≠ RevenueTier.medium :=
  ⟨C3_revenue_tier_thresholds.1 81 1001 29 (by decide) (by decide) (by decide),
   C3_revenue_tier_thresholds.2.1 81 29 (by decide) (by decide),
   C3_revenue_tier_thresholds.2.2.1 1001 29,
   C3_revenue_tier_thresholds.2.2.2.1 1001 29,
   C3_revenue_tier_thresholds.2.2.2.2 1001 29⟩

/-- Claim C6: `calculateTrendVelocity` doubles the growth delta, capping at
100 only on the accelerating branch (`growth7d > growth30d`) and flooring at
-100 only on the other branch; in particular `calculateTrendVelocity 10 5 =
10`, `calculateTrendVelocity 5 10 = -10` and `calculateTrendVelocity 60 0 =
100` (capped, not 120). -/
theorem C6_trend_velocity :
    (∀ g7 g30 : ℚ, calculateTrendVelocity g7 g30 =
        if g30 < g7 then min 100 ((g7 - g30) * 2)
        else max (-100) ((g7 - g30) * 2)) ∧
    calculateTrendVelocity 10 5 = 10 ∧
    calculateTrendVelocity 5 10 = -10 ∧
    calculateTrendVelocity 60 0 = 100 := by
  refine ⟨fun g7 g30 => rfl, ?_, ?_, ?_⟩ <;> norm_num [calculateTrendVelocity]

/-- Claim C4, evaluated at the failing input: on a category whose
competition-index read returns the empty sequence, `getCompetitionAnalysis`
does NOT fail with an `EmptyCategoryError` (no such error exists in the
code); it returns a summary whose `average` is the JS `Math.round(0 / 0) =
NaN` (embedded `none`) and whose `median` is the out-of-bounds read
`indices[0] = undefined` (embedded `none`). -/
theorem C4_empty_category_returns_ok :
    getCompetitionAnalysis (Except.ok []) =
      Except.ok
        { low_competition := 0
          medium_competition := 0
          high_competition := 0
          average := none
          median := none } := by
  simp [getCompetitionAnalysis, getCompetitionAnalysisCore]

/-- Keyword used as the single candidate of `repoPartialFailure`. -/
def kwSolo : Keyword :=
  { id := "kw-1"
    keyword := "solo keyword"
    search_volume := 800
    competition_index := 10
    category := "demo"
    trend_status := TrendStatus.stable
    created_at := ""
    updated_at := "" }

/-- Repository view whose candidate-list read succeeds with one candidate but
whose per-candidate metrics and trend reads both fail. -/
def repoPartialFailure : RepoView :=
  { keywordsRead := Except.ok [kwSolo]
    latestMetrics := fun _ => Except.error "metrics read failed"
    latestTrend := fun _ => Except.error "trend read failed" }

/-- Repository view whose candidate-list read itself fails. -/
def repoListFailure : RepoView :=
  { keywordsRead := Except.error "connection refused"
    latestMetrics := fun _ => Except.ok none
    latestTrend := fun _ => Except.ok none }

/-- Counterexample to claim C5: `repoPartialFailure`'s per-candidate metrics
and trend reads fail, yet `findOpportunities` still returns a full result set
(the candidate scored with both snapshots treated as absent) instead of
propagating a fatal failure. -/
theorem C5_counterexample :
    repoPartialFailure.latestMetrics kwSolo.id = Except.error "metrics read failed" ∧
    repoPartialFailure.latestTrend kwSolo.id = Except.error "trend read failed" ∧
    findOpportunities repoPartialFailure =
      Except.ok [calculateOpportunityScore kwSolo none none] := by
  refine ⟨rfl, rfl, ?_⟩
  simp only [findOpportunities, repoPartialFailure, List.map, List.mergeSort_singleton]
  rfl

/-- Claim C5 as amended: `findOpportunities` propagates a fatal failure
exactly when the candidate-list read fails; a failure of a per-candidate
latest-metrics or latest-trend read is silently swallowed (the snapshot is
treated as absent), and a result for every candidate is still returned. -/
theorem C5_failure_propagation (repo : RepoView) :
    (∀ e, repo.keywordsRead = Except.error e →
        findOpportunities repo = Except.error ("Failed to fetch keywords: " ++ e)) ∧
    (∀ kws, repo.keywordsRead = Except.ok kws →
        ∃ res, findOpportunities repo = Except.ok res ∧ res.length = kws.length) := by
  constructor
  · intro e he
    simp only [findOpportunities, he]
  · intro kws hk
    refine ⟨(kws.map (scoreCandidate repo)).mergeSort scoreDescLE, ?_, ?_⟩
    · simp only [findOpportunities, hk]
    · simp

/-- Witness for C5 (amended) at the two concrete repository views. -/
theorem C5_failure_propagation_witness :
    findOpportunities repoListFailure =
      Except.error "Failed to fetch keywords: connection refused" ∧
    ∃ res, findOpportunities repoPartialFailure = Except.ok res ∧ res.length = 1 := by
  constructor
  · exact (C5_failure_propagation repoListFailure).1 "connection refused" rfl
  · simpa using (C5_failure_propagation repoPartialFailure).2 [kwSolo] rfl

/-! ## Comparator facts and a stability lemma for the embedded sorts -/

/-- The ascending integer comparator is transitive. -/
theorem ascLE_trans (a b c : ℤ) : ascLE a b → ascLE b c → ascLE a c := by
  simp only [ascLE, decide_eq_true_eq]
  omega

/-- The ascending integer comparator is total. -/
theorem ascLE_total (a b : ℤ) : ascLE a b || ascLE b a := by
  simp only [ascLE, Bool.or_eq_true, decide_eq_true_eq]
  omega

/-- The descending-score comparator is transitive. -/
theorem scoreDescLE_trans (a b c : OpportunityScore) :
    scoreDescLE a b → scoreDescLE b c → scoreDescLE a c := by
  simp only [scoreDescLE, decide_eq_true_eq]
  omega

/-- The descending-score comparator is total. -/
theorem scoreDescLE_total (a b : OpportunityScore) :
    scoreDescLE a b || scoreDescLE b a := by
  simp only [scoreDescLE, Bool.or_eq_true, decide_eq_true_eq]
  omega

/-- Stability of the embedded sort, phrased through `filter`: filtering the
sorted list by a predicate whose elements are all tied under the comparator
returns those elements in their original input order. -/
theorem filter_mergeSort_eq {α : Type} (le : α → α → Bool)
    (htrans : ∀ a b c, le a b → le b c → le a c)
    (htotal : ∀ a b, le a b || le b a)
    (l : List α) (p : α → Bool) (hp : ∀ a b, p a → p b → le a b) :
    (l.mergeSort le).filter p = l.filter p := by
  have hpw : (l.filter p).Pairwise (fun a b => le a b) :=
    List.pairwise_of_forall_mem_list fun a ha b hb =>
      hp a b (List.of_mem_filter ha) (List.of_mem_filter hb)
  have h1 : List.Sublist (l.filter p) (l.mergeSort le) :=
    List.sublist_mergeSort htrans htotal hpw (List.filter_sublist l)
  have h2 : List.Sublist (l.filter p) ((l.mergeSort le).filter p) := by
    simpa using h1.filter p
  have h3 : List.Perm ((l.mergeSort le).filter p) (l.filter p) :=
    (l.mergeSort_perm le).filter p
  exact (h2.eq_of_length h3.length_eq.symm).symm

/-- The final sort of `findOpportunities` yields pairwise non-increasing
opportunity scores. -/
theorem pairwise_mergeSort_scoreDesc (l : List OpportunityScore) :
    (l.mergeSort scoreDescLE).Pairwise
      (fun a b => b.opportunity_score ≤ a.opportunity_score) := by
  have h := List.sorted_mergeSort scoreDescLE_trans scoreDescLE_total l
  exact h.imp (fun hab => by simpa [scoreDescLE] using hab)

/-- Claim C7: for every category read, the reported median is the element at
index `⌊n / 2⌋` of the ascending-sorted sequence of competition indices (the
lower median, never interpolated); in particular for `[10, 20, 30, 40]` the
median is `30`. -/
theorem C7_median_is_lower_median :
    (∀ (l sorted : List ℤ), sorted.Perm l → sorted.Sorted (fun a b => a ≤ b) →
        (getCompetitionAnalysisCore l).median = sorted[l.length / 2]?) ∧
    (getCompetitionAnalysisCore [10, 20, 30, 40]).median = some 30 := by
  have key : ∀ (l sorted : List ℤ), sorted.Perm l →
      sorted.Sorted (fun a b => a ≤ b) →
      (getCompetitionAnalysisCore l).median = sorted[l.length / 2]? := by
    intro l sorted hperm hsorted
    have hms : (l.mergeSort ascLE).Sorted (fun a b : ℤ => a ≤ b) :=
      (List.sorted_mergeSort ascLE_trans ascLE_total l).imp
        (fun hab => by simpa [ascLE] using hab)
    have heq : sorted = l.mergeSort ascLE :=
      List.eq_of_perm_of_sorted (hperm.trans (l.mergeSort_perm ascLE).symm)
        hsorted hms
    have hlen : (l.mergeSort ascLE).length = l.length := by simp
    show (l.mergeSort ascLE)[(l.mergeSort ascLE).length / 2]? = sorted[l.length / 2]?
    rw [heq, hlen]
  refine ⟨key, ?_⟩
  have h := key [10, 20, 30, 40] [10, 20, 30, 40] (List.Perm.refl _) (by decide)
  simpa using h

/-- Witness for C7 at the two-element list `[20, 10]`, whose ascending sort is
`[10, 20]` and whose lower median is the element at index `1`. -/
theorem C7_median_is_lower_median_witness :
    (getCompetitionAnalysisCore [20, 10]).median = some 20 := by
  have h := C7_median_is_lower_median.1 [20, 10] [10, 20] (by decide) (by decide)
  simpa using h

/-- Claim C8: whenever the candidate-list read succeeds, `findOpportunities`
returns a result list sorted in non-increasing `opportunity_score` order, and
the results carrying any fixed score appear in the same relative order as
their candidates did in the repository's sequence (stable tie-break). -/
theorem C8_sorted_descending_stable (repo : RepoView) (keywords : List Keyword)
    (h : repo.keywordsRead = Except.ok keywords) :
    ∃ res, findOpportunities repo = Except.ok res ∧
      res.Pairwise (fun a b => b.opportunity_score ≤ a.opportunity_score) ∧
      ∀ s : ℤ, res.filter (fun o => o.opportunity_score = s) =
        (keywords.map (scoreCandidate repo)).filter
          (fun o => o.opportunity_score = s) := by
  refine ⟨(keywords.map (scoreCandidate repo)).mergeSort scoreDescLE, ?_, ?_, ?_⟩
  · simp only [findOpportunities, h]
  · exact pairwise_mergeSort_scoreDesc _
  · intro s
    apply filter_mergeSort_eq scoreDescLE scoreDescLE_trans scoreDescLE_total
    intro a b ha hb
    simp only [decide_eq_true_eq] at ha hb
    simp [scoreDescLE, ha, hb]

/-- Equal-volume keyword used by the C8 witness (ties with `kwB`). -/
def kwA : Keyword :=
  { id := "kw-a"
    keyword := "keyword a"
    search_volume := 700
    competition_index := 20
    category := "demo"
    trend_status := TrendStatus.stable
    created_at := ""
    updated_at := "" }

/-- Equal-volume keyword used by the C8 witness (ties with `kwA`). -/
def kwB : Keyword :=
  { id := "kw-b"
    keyword := "keyword b"
    search_volume := 700
    competition_index := 20
    category := "demo"
    trend_status := TrendStatus.stable
    created_at := ""
    updated_at := "" }

/-- Repository view with two equal-scoring candidates and no recorded
snapshots. -/
def repoTwo : RepoView :=
  { keywordsRead := Except.ok [kwA, kwB]
    latestMetrics := fun _ => Except.ok none
    latestTrend := fun _ => Except.ok none }

/-- Witness for C8 at the concrete two-candidate repository view. -/
theorem C8_sorted_descending_stable_witness :
    ∃ res, findOpportunities repoTwo = Except.ok res ∧
      res.Pairwise (fun a b => b.opportunity_score ≤ a.opportunity_score) ∧
      ∀ s : ℤ, res.filter (fun o => o.opportunity_score = s) =
        ([kwA, kwB].map (scoreCandidate repoTwo)).filter
          (fun o => o.opportunity_score = s) :=
  C8_sorted_descending_stable repoTwo [kwA, kwB] rfl

/-! ## Bounds on the auxiliary scores -/

/-- Rounding an upper-bounded rational stays below the next integer. -/
theorem round_le_of_le {x : ℚ} {n : ℤ} (h : x ≤ (n : ℚ)) : round x ≤ n := by
  rw [round_eq]
  have hlt : x + 1 / 2 < ((n + 1 : ℤ) : ℚ) := by push_cast; linarith
  have := Int.floor_lt.mpr hlt
  omega

/-- Upper bound for `calculateSEOScore`: the volume term is capped at 50, so
with an in-range competition index and an in-range (or absent) conversion
potential the rounded sum is at most 100. -/
theorem calculateSEOScore_le_100 (keyword : Keyword)
    (metrics : Option KeywordMetrics)
    (hci : 0 ≤ keyword.competition_index)
    (hcp : ∀ m ∈ metrics, m.conversion_potential ≤ 100) :
    calculateSEOScore keyword metrics ≤ 100 := by
  have hbase : min ((keyword.search_volume : ℚ) / 20) 50 ≤ 50 := min_le_right _ _
  have hcomp : (100 - (keyword.competition_index : ℚ)) * 0.3 ≤ 30 := by
    have h : (0 : ℚ) ≤ (keyword.competition_index : ℚ) := by exact_mod_cast hci
    nlinarith
  have hconv :
      ((metrics.map (fun m => m.conversion_potential)).getD 50) * 0.2 ≤ 20 := by
    cases metrics with
    | none => norm_num
    | some m =>
      have h := hcp m rfl
      show m.conversion_potential * 0.2 ≤ 20
      nlinarith
  show round (min ((keyword.search_volume : ℚ) / 20) 50 +
      (100 - (keyword.competition_index : ℚ)) * 0.3 +
      ((metrics.map (fun m => m.conversion_potential)).getD 50) * 0.2) ≤ 100
  exact round_le_of_le (by push_cast; linarith)

/-- Metrics snapshot with maximal conversion potential, used by C9. -/
def mFullConversion : KeywordMetrics :=
  { id := "m-1"
    keyword_id := "kw-huge"
    click_volume := 0
    conversion_potential := 100
    niche_saturation := 0
    commercial_intent := 0
    recorded_at := "" }

/-- Keyword with very high search volume and zero competition, used by C9. -/
def kwHugeVolume : Keyword :=
  { id := "kw-huge"
    keyword := "huge volume keyword"
    search_volume := 1000000
    competition_index := 0
    category := "demo"
    trend_status := TrendStatus.stable
    created_at := ""
    updated_at := "" }

/-- Counterexample to claim C9's "exceeds 100" part: no keyword with in-range
competition index and in-range (or absent) conversion potential — whatever its
search volume — makes `calculateSEOScore` exceed 100, because the volume term
is capped at 50 by `min(search_volume / 20, 50)`. -/
theorem C9_counterexample :
    ¬ ∃ (keyword : Keyword) (metrics : Option KeywordMetrics),
        0 ≤ keyword.competition_index ∧ keyword.competition_index ≤ 100 ∧
        (∀ m ∈ metrics,
          0 ≤ m.conversion_potential ∧ m.conversion_potential ≤ 100) ∧
        100 < calculateSEOScore keyword metrics := by
  rintro ⟨keyword, metrics, hci0, hci1, hcp, hgt⟩
  have h := calculateSEOScore_le_100 keyword metrics hci0 (fun m hm => (hcp m hm).2)
  omega

/-- Claim C9 as amended: `calculateSEOScore` is the round of
`min(search_volume / 20, 50) + (100 - competition_index) * 0.3 +
(conversion_potential, defaulting to 50) * 0.2` with no clamp applied, but —
because the volume term is capped at 50 — its value never exceeds 100 for
in-range competition and conversion values; it attains exactly 100 for a very
high search volume with zero competition and full conversion potential. -/
theorem C9_seo_score_formula_and_bound :
    (∀ (keyword : Keyword) (metrics : Option KeywordMetrics),
        calculateSEOScore keyword metrics =
          round (min ((keyword.search_volume : ℚ) / 20) 50 +
            (100 - (keyword.competition_index : ℚ)) * 0.3 +
            ((metrics.map (fun m => m.conversion_potential)).getD 50) * 0.2)) ∧
    (∀ (keyword : Keyword) (metrics : Option KeywordMetrics),
        0 ≤ keyword.competition_index →
        (∀ m ∈ metrics, m.conversion_potential ≤ 100) →
        calculateSEOScore keyword metrics ≤ 100) ∧
    calculateSEOScore kwHugeVolume (some mFullConversion) = 100 := by
  refine ⟨fun keyword metrics => rfl,
    fun keyword metrics hci hcp => calculateSEOScore_le_100 keyword metrics hci hcp,
    ?_⟩
  norm_num [calculateSEOScore, round_eq, kwHugeVolume, mFullConversion]

/-- Witness for C9 (amended) at the very-high-volume keyword. -/
theorem C9_seo_score_formula_and_bound_witness :
    calculateSEOScore kwHugeVolume (some mFullConversion) ≤ 100 :=
  C9_seo_score_formula_and_bound.2.1 kwHugeVolume (some mFullConversion)
    (by decide)
    (by
      intro m hm
      rw [Option.mem_def] at hm
      injection hm with h
      subst h
      norm_num [mFullConversion])

/-- With a pre-clamp score of at most 65, the assigned tier is `low` or
`medium` — never `high` or `very_high`. -/
theorem categorizeRevenueTier_of_le_65 (s v c : ℤ) (hs : s ≤ 65) :
    categorizeRevenueTier s v c ≠ RevenueTier.high ∧
    categorizeRevenueTier s v c ≠ RevenueTier.very_high := by
  have h1 : ¬(80 < s ∧ 1000 < v ∧ c < 30) := by omega
  have h2 : ¬(70 < s ∧ 500 < v) := by omega
  simp only [categorizeRevenueTier, if_neg h1, if_neg h2]
  split_ifs <;> exact ⟨by decide, by decide⟩

/-- Claim C10 (implicit): with in-range inputs, the rounded pre-clamp
opportunity score is at most 65 — the weighted sum is at most
`20 + 40 + 30 + 20 = 110` and `round(110 / 1.7) = 65` — and consequently the
returned revenue tier is never `high` and never `very_high`. -/
theorem C10_raw_score_at_most_65 (keyword : Keyword)
    (metrics : Option KeywordMetrics) (trend : Option TrendAnalysis)
    (hvol : 0 ≤ keyword.search_volume)
    (hci0 : 0 ≤ keyword.competition_index) (hci1 : keyword.competition_index ≤ 100)
    (hns : ∀ m ∈ metrics, 0 ≤ m.niche_saturation ∧ m.niche_saturation ≤ 100)
    (hvs : ∀ t ∈ trend, -100 ≤ t.velocity_score ∧ t.velocity_score ≤ 100) :
    rawOpportunityScore keyword metrics trend ≤ 65 ∧
    (calculateOpportunityScore keyword metrics trend).potential_revenue_tier ≠
      RevenueTier.high ∧
    (calculateOpportunityScore keyword metrics trend).potential_revenue_tier ≠
      RevenueTier.very_high := by
  have hv100 : (trend.map (fun t => t.velocity_score)).getD 0 ≤ 100 := by
    cases trend with
    | none => norm_num
    | some t =>
      have h := hvs t rfl
      show t.velocity_score ≤ 100
      exact h.2
  have hns0 : 0 ≤ (metrics.map (fun m => m.niche_saturation)).getD 50 := by
    cases metrics with
    | none => norm_num
    | some m =>
      have h := hns m rfl
      show (0 : ℚ) ≤ m.niche_saturation
      exact h.1
  have hraw : rawOpportunityScore keyword metrics trend ≤ 65 := by
    have h1 : min ((keyword.search_volume : ℚ) / 100) 100 ≤ 100 := min_le_right _ _
    have h2 : (100 - (keyword.competition_index : ℚ)) ≤ 100 := by
      have h : (0 : ℚ) ≤ (keyword.competition_index : ℚ) := by exact_mod_cast hci0
      linarith
    have h3 : max 0 ((trend.map (fun t => t.velocity_score)).getD 0) ≤ 100 :=
      max_le (by norm_num) hv100
    have h4 : (100 - (metrics.map (fun m => m.niche_saturation)).getD 50) ≤ 100 := by
      linarith
    show round ((min ((keyword.search_volume : ℚ) / 100) 100 * 0.2 +
        (100 - (keyword.competition_index : ℚ)) * 0.4 +
        (max 0 ((trend.map (fun t => t.velocity_score)).getD 0)) * 0.3 +
        (100 - (metrics.map (fun m => m.niche_saturation)).getD 50) * 0.2) / 1.7) ≤ 65
    apply round_le_of_le
    push_cast
    rw [div_le_iff (by norm_num : (0 : ℚ) < 1.7)]
    linarith
  have htier := categorizeRevenueTier_of_le_65
    (rawOpportunityScore keyword metrics trend) keyword.search_volume
    keyword.competition_index hraw
  exact ⟨hraw, htier.1, htier.2⟩

/-- Witness for C10 at the concrete keyword `kwPeak600` with both snapshots
absent. -/
theorem C10_raw_score_at_most_65_witness :
    rawOpportunityScore kwPeak600 none none ≤ 65 ∧
    (calculateOpportunityScore kwPeak600 none none).potential_revenue_tier ≠
      RevenueTier.high ∧
    (calculateOpportunityScore kwPeak600 none none).potential_revenue_tier ≠
      RevenueTier.very_high :=
  C10_raw_score_at_most_65 kwPeak600 none none (by decide) (by decide) (by decide)
    (fun m hm => nomatch hm) (fun t ht => nomatch ht)

end SeoAnalyzer
